import Mathlib

set_option linter.unusedVariables false

/-! Shallow embedding of the sprite batching and GPU streaming pipeline of the
gwbase repository (src/src/glsprite.cpp, src/include/glsprite.hpp, and the
SpriteBatch blend mode methods of src/src/display.cpp).

Modelling conventions: machine integers (size_t, uint16_t, uint32_t) are
modelled as Nat, with an explicit reduction modulo 2 to the power of the index
width exactly where the C code truncates (the uint16 and uint32 index
generators); float arithmetic is modelled over an arbitrary field, with sinf
and cosf passed as abstract functions, and instantiated at the rationals in
concrete evaluations; C arrays are modelled as functions from Nat, with
pointwise functional update standing for an element store.  OpenGL calls
(buffer allocation, mapping, draw submission, state binds) have no CPU visible
state beyond the fields of sprite_effect_t tracked here, so draw submissions
and state applications are recorded as explicit events where a claim needs
them.  GPU object handles (VertexArray, VertexBuffer, IndexBuffer) are carried
as opaque Nat fields; the Projection matrix is not used by any claim and is
omitted from the record. -/

/-- Pointwise update of a function standing for a C array store. -/
def fupd {β : Type} (f : Nat → β) (k : Nat) (v : β) : Nat → β :=
  fun n => if n = k then v else f n

/-- OpenGL blend factor GL_ZERO. -/
def GL_ZERO : Nat := 0

/-- OpenGL blend factor GL_ONE. -/
def GL_ONE : Nat := 1

/-- OpenGL blend factor GL_SRC_COLOR. -/
def GL_SRC_COLOR : Nat := 0x0300

/-- OpenGL blend factor GL_SRC_ALPHA. -/
def GL_SRC_ALPHA : Nat := 0x0302

/-- OpenGL blend factor GL_ONE_MINUS_SRC_ALPHA. -/
def GL_ONE_MINUS_SRC_ALPHA : Nat := 0x0303

/-- OpenGL blend equation GL_FUNC_ADD. -/
def GL_FUNC_ADD : Nat := 0x8006

/-- Embedding of struct sprite_t from glsprite.hpp: one queued draw request.
Float fields are generic over a field; the uint32 fields stay Nat. -/
structure sprite_t (α : Type) where
  ScreenX : α
  ScreenY : α
  OriginX : α
  OriginY : α
  ScaleX : α
  ScaleY : α
  Orientation : α
  TintColor : Nat
  ImageX : Nat
  ImageY : Nat
  ImageWidth : Nat
  ImageHeight : Nat
  TextureWidth : Nat
  TextureHeight : Nat
  LayerDepth : Nat
  RenderState : Nat
  deriving DecidableEq

/-- Embedding of struct quad_t from glsprite.hpp.  The four element arrays
Source and Target and the pairs Origin and Scale are flattened into named
fields in declaration order. -/
structure quad_t (α : Type) where
  SourceX : α
  SourceY : α
  SourceW : α
  SourceH : α
  TargetX : α
  TargetY : α
  TargetW : α
  TargetH : α
  OriginX : α
  OriginY : α
  ScaleU : α
  ScaleV : α
  Orientation : α
  TintColor : Nat
  deriving DecidableEq

/-- Embedding of struct qsdata_t from glsprite.hpp: the sort key record. -/
structure qsdata_t where
  LayerDepth : Nat
  RenderState : Nat
  deriving DecidableEq

/-- Embedding of struct sprite_vertex_ptc_t from glsprite.hpp.  The XYUV
array is flattened into the four named fields x, y, u, v. -/
structure sprite_vertex_ptc_t (α : Type) where
  x : α
  y : α
  u : α
  v : α
  TintColor : Nat
  deriving DecidableEq

/-- Embedding of struct sprite_batch_t restricted to its counters.  The three
parallel array pointers Quads, State and Order are heap storage; the claims
about the batch store concern Count and Capacity only, and the array contents
are passed to the functions that read them as explicit function arguments. -/
structure sprite_batch_t where
  Count : Nat
  Capacity : Nat
  deriving DecidableEq

/-- Embedding of ensure_sprite_batch from glsprite.cpp: if the current
capacity is below the request, set the capacity to exactly the request and
reallocate the three arrays (reallocation itself has no counter effect). -/
def ensure_sprite_batch (batch : sprite_batch_t) (capacity : Nat) : sprite_batch_t :=
  if batch.Capacity < capacity then { batch with Capacity := capacity } else batch

/-- Embedding of flush_sprite_batch from glsprite.cpp: reset Count to zero. -/
def flush_sprite_batch (batch : sprite_batch_t) : sprite_batch_t :=
  { batch with Count := 0 }

/-- One step of a client call sequence against a sprite batch, for stating
the capacity monotonicity property across ensure and flush calls. -/
inductive batch_op
  | ensure (n : Nat)
  | flush
  deriving DecidableEq

/-- Run one batch operation. -/
def run_batch_op (b : sprite_batch_t) (op : batch_op) : sprite_batch_t :=
  match op with
  | batch_op.ensure n => ensure_sprite_batch b n
  | batch_op.flush => flush_sprite_batch b

/-- Run a sequence of batch operations left to right. -/
def run_batch_ops (b : sprite_batch_t) (ops : List batch_op) : sprite_batch_t :=
  ops.foldl run_batch_op b

/-- Loop body of generate_quads from glsprite.cpp: the quad record derived
from one sprite descriptor.  Uint fields are converted to the float type as
in the C widening conversions. -/
def quad_of_sprite {α : Type} [Field α] (s : sprite_t α) : quad_t α :=
  { SourceX := (s.ImageX : α)
    SourceY := (s.ImageY : α)
    SourceW := (s.ImageWidth : α)
    SourceH := (s.ImageHeight : α)
    TargetX := s.ScreenX
    TargetY := s.ScreenY
    TargetW := (s.ImageWidth : α) * s.ScaleX
    TargetH := (s.ImageHeight : α) * s.ScaleY
    OriginX := s.OriginX
    OriginY := s.OriginY
    ScaleU := 1 / (s.TextureWidth : α)
    ScaleV := 1 / (s.TextureHeight : α)
    Orientation := s.Orientation
    TintColor := s.TintColor }

/-- Embedding of generate_quads from glsprite.cpp.  The destination arrays
quads, sdata and indices are threaded through as functions; each loop
iteration stores the derived quad record, the sort key record and the
identity order index at the current quad index, then advances both the quad
index and the sprite index. -/
def generate_quads {α : Type} [Field α] (quads : Nat → quad_t α) (sdata : Nat → qsdata_t)
    (indices : Nat → Nat) (quad_offset : Nat) (sprites : Nat → sprite_t α)
    (sprite_offset : Nat) (sprite_count : Nat) :
    (Nat → quad_t α) × (Nat → qsdata_t) × (Nat → Nat) :=
  match sprite_count with
  | 0 => (quads, sdata, indices)
  | n + 1 =>
    let s := sprites sprite_offset
    generate_quads (fupd quads quad_offset (quad_of_sprite s))
      (fupd sdata quad_offset ⟨s.LayerDepth, s.RenderState⟩)
      (fupd indices quad_offset quad_offset)
      (quad_offset + 1) sprites (sprite_offset + 1) n

/-- The fractional X corner table XCO of generate_quad_vertices_ptc. -/
def XCO {α : Type} [Field α] : Nat → α
  | 0 => 0
  | 1 => 1
  | 2 => 1
  | _ => 0

/-- The fractional Y corner table YCO of generate_quad_vertices_ptc. -/
def YCO {α : Type} [Field α] : Nat → α
  | 0 => 0
  | 1 => 0
  | 2 => 1
  | _ => 1

/-- Inner loop body of generate_quad_vertices_ptc from glsprite.cpp: the
vertex written for corner j of quad q, with sinf and cosf abstract. -/
def quad_vertex_ptc {α : Type} [Field α] (sin cos : α → α) (q : quad_t α) (j : Nat) :
    sprite_vertex_ptc_t α :=
  let ctr_x := q.OriginX / q.SourceW
  let ctr_y := q.OriginY / q.SourceH
  let sin_o := sin q.Orientation
  let cos_o := cos q.Orientation
  let ofs_x := XCO j
  let ofs_y := YCO j
  let x_dst := (ofs_x - ctr_x) * q.TargetW
  let y_dst := (ofs_y - ctr_y) * q.TargetH
  { x := (q.TargetX + (x_dst * cos_o)) - (y_dst * sin_o)
    y := (q.TargetY + (x_dst * sin_o)) + (y_dst * cos_o)
    u := (q.SourceX + (ofs_x * q.SourceW)) * q.ScaleU
    v := 1 - ((q.SourceY + (ofs_y * q.SourceH)) * q.ScaleV)
    TintColor := q.TintColor }

/-- The four vertices written for one quad, corners in table order. -/
def quad_vertices_ptc {α : Type} [Field α] (sin cos : α → α) (q : quad_t α) :
    List (sprite_vertex_ptc_t α) :=
  [quad_vertex_ptc sin cos q 0, quad_vertex_ptc sin cos q 1,
   quad_vertex_ptc sin cos q 2, quad_vertex_ptc sin cos q 3]

/-- Outer loop of generate_quad_vertices_ptc: i is the running quad counter,
rem the number of quads still to emit; the output list is the vertex buffer
contents starting at the write position. -/
def generate_quad_vertices_ptc_go {α : Type} [Field α] (sin cos : α → α)
    (quads : Nat → quad_t α) (indices : Nat → Nat) (quad_offset i rem : Nat) :
    List (sprite_vertex_ptc_t α) :=
  match rem with
  | 0 => []
  | n + 1 =>
    quad_vertices_ptc sin cos (quads (indices (quad_offset + i))) ++
      generate_quad_vertices_ptc_go sin cos quads indices quad_offset (i + 1) n

/-- Embedding of generate_quad_vertices_ptc from glsprite.cpp: expand the
quads selected by the order indices into interleaved vertices, four per quad,
in order. -/
def generate_quad_vertices_ptc {α : Type} [Field α] (sin cos : α → α)
    (quads : Nat → quad_t α) (indices : Nat → Nat) (quad_offset quad_count : Nat) :
    List (sprite_vertex_ptc_t α) :=
  generate_quad_vertices_ptc_go sin cos quads indices quad_offset 0 quad_count

/-- Vertex formula as written in the specification, section 4.2: un-rotated
local offset, rotation by orientation about the target point, normalized UV
with the V flip, tint copied verbatim.  Used only to compare against the
code derived definition quad_vertex_ptc. -/
def spec_vertex_ptc {α : Type} [Field α] (sin cos : α → α) (texW texH : α)
    (q : quad_t α) (j : Nat) : sprite_vertex_ptc_t α :=
  let fx := XCO j
  let fy := YCO j
  let x_dst := (fx - q.OriginX / q.SourceW) * q.TargetW
  let y_dst := (fy - q.OriginY / q.SourceH) * q.TargetH
  { x := q.TargetX + x_dst * cos q.Orientation - y_dst * sin q.Orientation
    y := q.TargetY + x_dst * sin q.Orientation + y_dst * cos q.Orientation
    u := (q.SourceX + fx * q.SourceW) * (1 / texW)
    v := 1 - (q.SourceY + fy * q.SourceH) * (1 / texH)
    TintColor := q.TintColor }

/-- Loop of generate_quad_indices_u16 from glsprite.cpp.  The running base
vertex b16 is a uint16, so every stored value and the per quad increment are
reduced modulo 65536. -/
def generate_quad_indices_u16_go (buffer : Nat → Nat) (offset b16 rem : Nat) : Nat → Nat :=
  match rem with
  | 0 => buffer
  | n + 1 =>
    let buffer := fupd buffer offset ((b16 + 1) % 65536)
    let buffer := fupd buffer (offset + 1) ((b16 + 0) % 65536)
    let buffer := fupd buffer (offset + 2) ((b16 + 2) % 65536)
    let buffer := fupd buffer (offset + 3) ((b16 + 2) % 65536)
    let buffer := fupd buffer (offset + 4) ((b16 + 0) % 65536)
    let buffer := fupd buffer (offset + 5) ((b16 + 3) % 65536)
    generate_quad_indices_u16_go buffer (offset + 6) ((b16 + 4) % 65536) n

/-- Embedding of generate_quad_indices_u16: base_vertex is truncated to
uint16 on entry, then six indices are stored per quad. -/
def generate_quad_indices_u16 (buffer : Nat → Nat) (offset base_vertex quad_count : Nat) :
    Nat → Nat :=
  generate_quad_indices_u16_go buffer offset (base_vertex % 65536) quad_count

/-- Loop of generate_quad_indices_u32 from glsprite.cpp, with uint32
arithmetic modulo 4294967296. -/
def generate_quad_indices_u32_go (buffer : Nat → Nat) (offset b32 rem : Nat) : Nat → Nat :=
  match rem with
  | 0 => buffer
  | n + 1 =>
    let buffer := fupd buffer offset ((b32 + 1) % 4294967296)
    let buffer := fupd buffer (offset + 1) ((b32 + 0) % 4294967296)
    let buffer := fupd buffer (offset + 2) ((b32 + 2) % 4294967296)
    let buffer := fupd buffer (offset + 3) ((b32 + 2) % 4294967296)
    let buffer := fupd buffer (offset + 4) ((b32 + 0) % 4294967296)
    let buffer := fupd buffer (offset + 5) ((b32 + 3) % 4294967296)
    generate_quad_indices_u32_go buffer (offset + 6) ((b32 + 4) % 4294967296) n

/-- Embedding of generate_quad_indices_u32: base_vertex is truncated to
uint32 on entry, then six indices are stored per quad. -/
def generate_quad_indices_u32 (buffer : Nat → Nat) (offset base_vertex quad_count : Nat) :
    Nat → Nat :=
  generate_quad_indices_u32_go buffer offset (base_vertex % 4294967296) quad_count

/-- Embedding of struct sprite_effect_t from glsprite.hpp.  Counters and
sizes are Nat; GL enum fields are Nat; the constant blend color entries are
rationals standing for GLfloat; GPU object handles are opaque Nat fields.
The Projection matrix is unused by every claim and omitted. -/
structure sprite_effect_t where
  VertexCapacity : Nat
  VertexOffset : Nat
  VertexSize : Nat
  IndexCapacity : Nat
  IndexOffset : Nat
  IndexSize : Nat
  CurrentState : Nat
  VertexArray : Nat
  VertexBuffer : Nat
  IndexBuffer : Nat
  BlendEnabled : Bool
  BlendSourceColor : Nat
  BlendSourceAlpha : Nat
  BlendTargetColor : Nat
  BlendTargetAlpha : Nat
  BlendFuncColor : Nat
  BlendFuncAlpha : Nat
  BlendColor0 : ℚ
  BlendColor1 : ℚ
  BlendColor2 : ℚ
  BlendColor3 : ℚ
  deriving DecidableEq

/-- Embedding of create_sprite_effect from glsprite.cpp.  The GL buffer and
vertex array objects are allocated on the GPU; their handles are opaque and
modelled as zero.  All counter, size, state and blend fields are set exactly
as the C code sets them. -/
def create_sprite_effect (quad_count vertex_size index_size : Nat) : sprite_effect_t :=
  { VertexCapacity := quad_count * 4
    VertexOffset := 0
    VertexSize := vertex_size
    IndexCapacity := quad_count * 6
    IndexOffset := 0
    IndexSize := index_size
    CurrentState := 0xFFFFFFFF
    VertexArray := 0
    VertexBuffer := 0
    IndexBuffer := 0
    BlendEnabled := false
    BlendSourceColor := GL_ONE
    BlendSourceAlpha := GL_ONE
    BlendTargetColor := GL_ZERO
    BlendTargetAlpha := GL_ZERO
    BlendFuncColor := GL_FUNC_ADD
    BlendFuncAlpha := GL_FUNC_ADD
    BlendColor0 := 0
    BlendColor1 := 0
    BlendColor2 := 0
    BlendColor3 := 0 }

/-- Embedding of sprite_effect_blend_none from glsprite.cpp. -/
def sprite_effect_blend_none (effect : sprite_effect_t) : sprite_effect_t :=
  { effect with
      BlendEnabled := false
      BlendSourceColor := GL_ONE
      BlendSourceAlpha := GL_ONE
      BlendTargetColor := GL_ZERO
      BlendTargetAlpha := GL_ZERO
      BlendFuncColor := GL_FUNC_ADD
      BlendFuncAlpha := GL_FUNC_ADD
      BlendColor0 := 0
      BlendColor1 := 0
      BlendColor2 := 0
      BlendColor3 := 0 }

/-- Embedding of sprite_effect_blend_alpha from glsprite.cpp. -/
def sprite_effect_blend_alpha (effect : sprite_effect_t) : sprite_effect_t :=
  { effect with
      BlendEnabled := true
      BlendSourceColor := GL_SRC_COLOR
      BlendSourceAlpha := GL_SRC_ALPHA
      BlendTargetColor := GL_ONE_MINUS_SRC_ALPHA
      BlendTargetAlpha := GL_ONE_MINUS_SRC_ALPHA
      BlendFuncColor := GL_FUNC_ADD
      BlendFuncAlpha := GL_FUNC_ADD
      BlendColor0 := 0
      BlendColor1 := 0
      BlendColor2 := 0
      BlendColor3 := 0 }

/-- Embedding of sprite_effect_blend_additive from glsprite.cpp. -/
def sprite_effect_blend_additive (effect : sprite_effect_t) : sprite_effect_t :=
  { effect with
      BlendEnabled := true
      BlendSourceColor := GL_SRC_COLOR
      BlendSourceAlpha := GL_SRC_ALPHA
      BlendTargetColor := GL_ONE
      BlendTargetAlpha := GL_ONE
      BlendFuncColor := GL_FUNC_ADD
      BlendFuncAlpha := GL_FUNC_ADD
      BlendColor0 := 0
      BlendColor1 := 0
      BlendColor2 := 0
      BlendColor3 := 0 }

/-- Embedding of sprite_effect_blend_premultiplied from glsprite.cpp. -/
def sprite_effect_blend_premultiplied (effect : sprite_effect_t) : sprite_effect_t :=
  { effect with
      BlendEnabled := true
      BlendSourceColor := GL_ONE
      BlendSourceAlpha := GL_ONE
      BlendTargetColor := GL_ONE_MINUS_SRC_ALPHA
      BlendTargetAlpha := GL_ONE_MINUS_SRC_ALPHA
      BlendFuncColor := GL_FUNC_ADD
      BlendFuncAlpha := GL_FUNC_ADD
      BlendColor0 := 0
      BlendColor1 := 0
      BlendColor2 := 0
      BlendColor3 := 0 }

/-- Embedding of sprite_effect_buffer_data_ptc from glsprite.cpp, restricted
to its CPU visible effect: the cursor and counter arithmetic.  The vertex and
index data written through the GL buffer mappings are produced by
generate_quad_vertices_ptc and the index generators, modelled separately.
The result carries the updated effect, the returned buffer_count, and the
value of the caller base index variable after the call: the C code stores
base_index through the out pointer only on the non zero return path, so on
the early zero return the third component is the unchanged argument.  Note
that the orphan reset of both cursors happens before the early return check,
so it is visible even when the function returns zero. -/
def sprite_effect_buffer_data_ptc (effect : sprite_effect_t)
    (quad_count base_index_arg : Nat) : sprite_effect_t × Nat × Nat :=
  let effect :=
    if effect.VertexOffset = effect.VertexCapacity then
      { effect with VertexOffset := 0, IndexOffset := 0 }
    else effect
  let num_indices := quad_count * 6
  let num_vertices := quad_count * 4
  let max_vertices := effect.VertexCapacity
  let base_vertex := effect.VertexOffset
  let max_indices := effect.IndexCapacity
  let base_index := effect.IndexOffset
  let num_vertices :=
    if max_vertices < base_vertex + num_vertices then max_vertices - base_vertex
    else num_vertices
  let num_indices :=
    if max_vertices < base_vertex + quad_count * 4 then max_indices - base_index
    else num_indices
  let buffer_count := num_vertices / 4
  if buffer_count = 0 then (effect, 0, base_index_arg)
  else
    ({ effect with
        VertexOffset := effect.VertexOffset + buffer_count * 4
        IndexOffset := effect.IndexOffset + buffer_count * 6 },
      buffer_count, base_index)

/-- Observable GL action of the batch region driver: an indexed draw call
with its index count and its starting index buffer offset (in indices; the C
code multiplies by the index size to obtain the byte offset), or an
invocation of the ApplyState callback with a render state value. -/
inductive draw_event
  | draw (num_indices base_index : Nat)
  | applyState (state : Nat)
  deriving DecidableEq

/-- True exactly on ApplyState events. -/
def is_apply : draw_event → Bool
  | draw_event.applyState _ => true
  | _ => false

/-- True exactly on draw events. -/
def is_draw : draw_event → Bool
  | draw_event.draw _ _ => true
  | _ => false

/-- Loop of sprite_effect_draw_batch_region_ptc from glsprite.cpp.  The
batch arrays are passed as functions: rstate maps a quad id to its
RenderState sort key (batch State array) and order maps a position to a quad
id (batch Order array).  state0 is the running state_0 variable, run_start
the variable named index in the C code, i the loop counter, rem the number
of iterations left, acc the events emitted so far.  Returns the events, the
final state_1 value, the final run start and the final base index. -/
def draw_region_go (rstate order : Nat → Nat) (quad_offset state0 run_start base_index i : Nat)
    (acc : List draw_event) (rem : Nat) : List draw_event × Nat × Nat × Nat :=
  match rem with
  | 0 => (acc, state0, run_start, base_index)
  | n + 1 =>
    let quad_id := order (quad_offset + i)
    let state1 := rstate quad_id
    if state1 ≠ state0 then
      if run_start < i then
        draw_region_go rstate order quad_offset state1 i
          (base_index + (i - run_start) * 6) (i + 1)
          (acc ++ [draw_event.draw ((i - run_start) * 6) base_index,
                   draw_event.applyState state1]) n
      else
        draw_region_go rstate order quad_offset state1 i base_index (i + 1)
          (acc ++ [draw_event.applyState state1]) n
    else
      draw_region_go rstate order quad_offset state0 run_start base_index (i + 1) acc n

/-- Embedding of sprite_effect_draw_batch_region_ptc from glsprite.cpp: run
the state change scan over the region, then submit the remainder run (the C
code always issues this final glDrawElements, with a zero index count when
the region is empty).  Returns the emitted events and the final state_1
value stored into effect CurrentState. -/
def sprite_effect_draw_batch_region_ptc (rstate order : Nat → Nat)
    (quad_offset quad_count base_index current_state : Nat) : List draw_event × Nat :=
  let r := draw_region_go rstate order quad_offset current_state 0 base_index 0 [] quad_count
  (r.1 ++ [draw_event.draw ((quad_count - r.2.2.1) * 6) r.2.2.2], r.2.1)

/-- Loop of sprite_effect_draw_batch_ptc from glsprite.cpp, restricted to the
effect cursor state: each iteration buffers data, draws the buffered region
(which only touches effect CurrentState, not tracked by this loop model),
reloads the caller base index from the post call IndexOffset, and advances.
The C loop has no bound of its own; fuel is an iteration budget used to make
the recursion well founded, and the Bool result records whether the loop
reached quad_count zero within the budget. -/
def draw_batch_go (effect : sprite_effect_t) (quad_index quad_count base_index fuel : Nat) :
    sprite_effect_t × Bool :=
  match fuel with
  | 0 => if quad_count = 0 then (effect, true) else (effect, false)
  | f + 1 =>
    if quad_count = 0 then (effect, true)
    else
      let r := sprite_effect_buffer_data_ptc effect quad_count base_index
      let n := r.2.1
      draw_batch_go r.1 (quad_index + n) (quad_count - n) r.1.IndexOffset f

/-- Embedding of sprite_effect_draw_batch_ptc from glsprite.cpp: the
SetupEffect callback is invoked (no modelled state), CurrentState is set to
the sentinel 0xFFFFFFFF, then the buffering loop runs over the whole batch
count with the given fuel. -/
def sprite_effect_draw_batch_ptc (effect : sprite_effect_t) (batch_count fuel : Nat) :
    sprite_effect_t × Bool :=
  draw_batch_go { effect with CurrentState := 0xFFFFFFFF } 0 batch_count 0 fuel

/-- Well formedness of the effect capacities as established by
create_sprite_effect: the vertex capacity is a whole number of quads and the
index capacity is the matching number of indices. -/
def sprite_effect_wf (e : sprite_effect_t) : Prop :=
  e.VertexCapacity % 4 = 0 ∧ e.IndexCapacity = e.VertexCapacity / 4 * 6

/-- The cursor coupling invariant of claim C9: the vertex cursor is a whole
number of quads, the index cursor tracks it at six indices per quad, and
both cursors are within capacity. -/
def cursor_inv (e : sprite_effect_t) : Prop :=
  e.VertexOffset % 4 = 0 ∧ e.IndexOffset = e.VertexOffset / 4 * 6 ∧
  e.VertexOffset ≤ e.VertexCapacity ∧ e.IndexOffset ≤ e.IndexCapacity

/-- Observable action of SpriteBatch Flush in display.cpp: one whole batch
submission, recording the sprite list handed to the pipeline and the effect
state (in particular the blend fields applied at bind time by
sprite_effect_apply_blendstate) in force when the submission was issued. -/
inductive flush_event (σ : Type)
  | submit (sprites : List σ) (effect : sprite_effect_t)
  deriving DecidableEq

/-- The members of the SpriteBatch class of display.cpp that the blend mode
claims touch: the queued sprite descriptor vector SpriteData (its element
type left generic), the effect EffectData, and the batch counters BatchData.
The GL program, sampler and uniform handles have no modelled state. -/
structure SpriteBatch (σ : Type) where
  SpriteData : List σ
  EffectData : sprite_effect_t
  BatchData : sprite_batch_t
  deriving DecidableEq

/-- Embedding of SpriteBatch Flush from display.cpp: when sprites are queued,
the batch is grown to the sprite count, quads are generated into the batch
arrays (array contents are read by the draw driver, modelled separately),
the whole batch is drawn through sprite_effect_draw_batch_ptc, the batch
count is reset and the sprite vector cleared.  The GL submission is recorded
as a single submit event carrying the queued sprites and the effect state
used for the submission.  When nothing is queued the call does nothing. -/
def SpriteBatch.Flush {σ : Type} (b : SpriteBatch σ) : SpriteBatch σ × List (flush_event σ) :=
  let count := b.SpriteData.length
  if 0 < count then
    let batch1 := { ensure_sprite_batch b.BatchData count with Count := count }
    let effect1 := (sprite_effect_draw_batch_ptc b.EffectData count count).1
    ({ SpriteData := [], EffectData := effect1, BatchData := flush_sprite_batch batch1 },
      [flush_event.submit b.SpriteData b.EffectData])
  else (b, [])

/-- Embedding of SpriteBatch SetBlendModeNone from display.cpp: Flush, then
apply the preset to the effect. -/
def SpriteBatch.SetBlendModeNone {σ : Type} (b : SpriteBatch σ) :
    SpriteBatch σ × List (flush_event σ) :=
  let r := b.Flush
  ({ r.1 with EffectData := sprite_effect_blend_none r.1.EffectData }, r.2)

/-- Embedding of SpriteBatch SetBlendModeAlpha from display.cpp. -/
def SpriteBatch.SetBlendModeAlpha {σ : Type} (b : SpriteBatch σ) :
    SpriteBatch σ × List (flush_event σ) :=
  let r := b.Flush
  ({ r.1 with EffectData := sprite_effect_blend_alpha r.1.EffectData }, r.2)

/-- Embedding of SpriteBatch SetBlendModeAdditive from display.cpp. -/
def SpriteBatch.SetBlendModeAdditive {σ : Type} (b : SpriteBatch σ) :
    SpriteBatch σ × List (flush_event σ) :=
  let r := b.Flush
  ({ r.1 with EffectData := sprite_effect_blend_additive r.1.EffectData }, r.2)

/-- Embedding of SpriteBatch SetBlendModePremultiplied from display.cpp. -/
def SpriteBatch.SetBlendModePremultiplied {σ : Type} (b : SpriteBatch σ) :
    SpriteBatch σ × List (flush_event σ) :=
  let r := b.Flush
  ({ r.1 with EffectData := sprite_effect_blend_premultiplied r.1.EffectData }, r.2)

/-- The blend configuration fields of an effect, gathered for comparison
against the four presets. -/
structure blend_values where
  Enabled : Bool
  SourceColor : Nat
  SourceAlpha : Nat
  TargetColor : Nat
  TargetAlpha : Nat
  FuncColor : Nat
  FuncAlpha : Nat
  Color0 : ℚ
  Color1 : ℚ
  Color2 : ℚ
  Color3 : ℚ
  deriving DecidableEq

/-- Projection of the blend fields out of an effect. -/
def blend_of (e : sprite_effect_t) : blend_values :=
  ⟨e.BlendEnabled, e.BlendSourceColor, e.BlendSourceAlpha, e.BlendTargetColor,
   e.BlendTargetAlpha, e.BlendFuncColor, e.BlendFuncAlpha,
   e.BlendColor0, e.BlendColor1, e.BlendColor2, e.BlendColor3⟩

/-- The disabled blending preset, values as sprite_effect_blend_none sets. -/
def blend_none_values : blend_values :=
  ⟨false, GL_ONE, GL_ONE, GL_ZERO, GL_ZERO, GL_FUNC_ADD, GL_FUNC_ADD, 0, 0, 0, 0⟩

/-- The standard alpha blending preset. -/
def blend_alpha_values : blend_values :=
  ⟨true, GL_SRC_COLOR, GL_SRC_ALPHA, GL_ONE_MINUS_SRC_ALPHA, GL_ONE_MINUS_SRC_ALPHA,
   GL_FUNC_ADD, GL_FUNC_ADD, 0, 0, 0, 0⟩

/-- The additive blending preset. -/
def blend_additive_values : blend_values :=
  ⟨true, GL_SRC_COLOR, GL_SRC_ALPHA, GL_ONE, GL_ONE, GL_FUNC_ADD, GL_FUNC_ADD, 0, 0, 0, 0⟩

/-- The premultiplied alpha blending preset. -/
def blend_premultiplied_values : blend_values :=
  ⟨true, GL_ONE, GL_ONE, GL_ONE_MINUS_SRC_ALPHA, GL_ONE_MINUS_SRC_ALPHA,
   GL_FUNC_ADD, GL_FUNC_ADD, 0, 0, 0, 0⟩

/-- Embedding of the back_to_front comparison functor from glsprite.hpp.
The batch State array is passed as the function state. -/
def back_to_front (state : Nat → qsdata_t) (ia ib : Nat) : Bool :=
  let a := state ia
  let b := state ib
  if a.LayerDepth > b.LayerDepth then true
  else if a.LayerDepth < b.LayerDepth then false
  else if a.RenderState < b.RenderState then true
  else if a.RenderState > b.RenderState then false
  else decide (ia < ib)

/-- Embedding of the front_to_back comparison functor from glsprite.hpp. -/
def front_to_back (state : Nat → qsdata_t) (ia ib : Nat) : Bool :=
  let a := state ia
  let b := state ib
  if a.LayerDepth < b.LayerDepth then true
  else if a.LayerDepth > b.LayerDepth then false
  else if a.RenderState < b.RenderState then true
  else if a.RenderState > b.RenderState then false
  else decide (ia > ib)

/-- Embedding of the by_render_state comparison functor from glsprite.hpp. -/
def by_render_state (state : Nat → qsdata_t) (ia ib : Nat) : Bool :=
  let a := state ia
  let b := state ib
  if a.RenderState < b.RenderState then true
  else if a.RenderState > b.RenderState then false
  else decide (ia < ib)

/-- The back to front order as the specification words it: layer depth
descending, then render state ascending, then original index ascending. -/
def b2f_order (state : Nat → qsdata_t) (ia ib : Nat) : Prop :=
  (state ia).LayerDepth > (state ib).LayerDepth ∨
    ((state ia).LayerDepth = (state ib).LayerDepth ∧
      ((state ia).RenderState < (state ib).RenderState ∨
        ((state ia).RenderState = (state ib).RenderState ∧ ia < ib)))

/-- The front to back order as the specification words it: layer depth
ascending, then render state ascending, then original index descending. -/
def f2b_order (state : Nat → qsdata_t) (ia ib : Nat) : Prop :=
  (state ia).LayerDepth < (state ib).LayerDepth ∨
    ((state ia).LayerDepth = (state ib).LayerDepth ∧
      ((state ia).RenderState < (state ib).RenderState ∨
        ((state ia).RenderState = (state ib).RenderState ∧ ia > ib)))

/-- The by render state order as the specification words it: render state
ascending, then original index ascending, layer depth ignored. -/
def brs_order (state : Nat → qsdata_t) (ia ib : Nat) : Prop :=
  (state ia).RenderState < (state ib).RenderState ∨
    ((state ia).RenderState = (state ib).RenderState ∧ ia < ib)

/-- Concrete sort key array used by the comparator witness: indices 0 and 1
share keys, index 2 is deeper with another render state. -/
def c6_state : Nat → qsdata_t :=
  fun n => if n = 0 then ⟨5, 2⟩ else if n = 1 then ⟨5, 2⟩ else ⟨3, 7⟩

/-- Concrete render state array for the coalescing witness: positions 0 to 2
hold state 4, the rest state 9. -/
def c2_rstate : Nat → Nat := fun i => if i < 3 then 4 else 9

/-- Identity order array for the coalescing witness. -/
def c2_order : Nat → Nat := fun i => i

/-- Concrete render state array for the coalescing counterexample: the first
run uses the render state value equal to the sentinel 0xFFFFFFFF. -/
def c2_rstate_cex : Nat → Nat := fun i => if i < 3 then 0xFFFFFFFF else 0

/-- Concrete quad used by the vertex derivation witness. -/
def c3_quad : quad_t ℚ :=
  { SourceX := 3, SourceY := 5, SourceW := 2, SourceH := 4
    TargetX := 7, TargetY := 11, TargetW := 6, TargetH := 8
    OriginX := 1, OriginY := 2, ScaleU := 1 / 16, ScaleV := 1 / 32
    Orientation := 0, TintColor := 9 }

/-- Constant quad array for the vertex derivation witness. -/
def c3_quads : Nat → quad_t ℚ := fun _ => c3_quad

/-- Identity order array for the vertex derivation witness. -/
def c3_indices : Nat → Nat := fun n => n

/-- Abstract sine instantiation for the vertex derivation witness. -/
def c3_sin : ℚ → ℚ := fun _ => 0

/-- Abstract cosine instantiation for the vertex derivation witness. -/
def c3_cos : ℚ → ℚ := fun _ => 1

/-- Concrete sprite descriptor for the quad generation witness. -/
def c4_sprite : sprite_t ℚ :=
  { ScreenX := 10, ScreenY := 20, OriginX := 1, OriginY := 2, ScaleX := 3, ScaleY := 4
    Orientation := 5, TintColor := 6, ImageX := 7, ImageY := 8, ImageWidth := 9
    ImageHeight := 11, TextureWidth := 12, TextureHeight := 13, LayerDepth := 14
    RenderState := 15 }

/-- Constant sprite array for the quad generation witness. -/
def c4_sprites : Nat → sprite_t ℚ := fun _ => c4_sprite

/-- Initial quad array for the quad generation witness. -/
def c4_quads0 : Nat → quad_t ℚ := fun _ => c3_quad

/-- Initial sort key array for the quad generation witness. -/
def c4_sdata0 : Nat → qsdata_t := fun _ => ⟨0, 0⟩

/-- Initial order array for the quad generation witness. -/
def c4_indices0 : Nat → Nat := fun _ => 0

/-- Zero filled index buffer for the index winding witness. -/
def c7_buffer : Nat → Nat := fun _ => 0

/-- Every single batch operation leaves the capacity no smaller. -/
theorem run_batch_op_capacity_mono (b : sprite_batch_t) (op : batch_op) :
    b.Capacity ≤ (run_batch_op b op).Capacity := by
  cases op with
  | ensure n =>
    simp only [run_batch_op, ensure_sprite_batch]
    split_ifs with h
    · simp
      omega
    · omega
  | flush => simp [run_batch_op, flush_sprite_batch]

/-- C5 counterexample: the growth of ensure_sprite_batch is not geometric.
Starting from capacity 16, a request for 17 yields capacity exactly 17, not
at least a constant multiple of the old capacity (doubling would give 32):
the code sets the capacity to exactly the requested value. -/
theorem c5_growth_counterexample :
    (ensure_sprite_batch ⟨0, 16⟩ 17).Capacity = 17 ∧
    ¬ 16 * 2 ≤ (ensure_sprite_batch ⟨0, 16⟩ 17).Capacity ∧
    (16 : Nat) < 17 := by decide

/-- C5 (amended): ensure_sprite_batch grows the capacity to exactly the
requested value when the request exceeds the current capacity (not by a
multiplicative factor); after any ensure call the capacity is at least the
request and at least the old capacity; flush only resets Count and keeps the
capacity; the capacity never decreases across any sequence of ensure and
flush calls. -/
theorem c5_capacity_exact_growth_monotone :
    (∀ b n, b.Capacity < n → (ensure_sprite_batch b n).Capacity = n) ∧
    (∀ b n, n ≤ (ensure_sprite_batch b n).Capacity) ∧
    (∀ b n, b.Capacity ≤ (ensure_sprite_batch b n).Capacity) ∧
    (∀ b, (flush_sprite_batch b).Capacity = b.Capacity ∧ (flush_sprite_batch b).Count = 0) ∧
    (∀ ops b, b.Capacity ≤ (run_batch_ops b ops).Capacity) := by
  refine ⟨?_, ?_, ?_, ?_, ?_⟩
  · intro b n h
    simp only [ensure_sprite_batch]
    rw [if_pos h]
  · intro b n
    simp only [ensure_sprite_batch]
    split_ifs with h
    · simp
    · omega
  · intro b n
    simp only [ensure_sprite_batch]
    split_ifs with h
    · simp
      omega
    · omega
  · intro b
    exact ⟨rfl, rfl⟩
  · intro ops
    induction ops with
    | nil => intro b; exact Nat.le_refl _
    | cons op rest ih =>
      intro b
      calc b.Capacity ≤ (run_batch_op b op).Capacity := run_batch_op_capacity_mono b op
        _ ≤ (run_batch_ops (run_batch_op b op) rest).Capacity := ih _

/-- C5 witness: growing a batch of capacity 3 to capacity 10. -/
theorem c5_capacity_witness : (ensure_sprite_batch ⟨0, 3⟩ 10).Capacity = 10 :=
  c5_capacity_exact_growth_monotone.1 ⟨0, 3⟩ 10 (by decide)

/-- Positions below the write offset are never touched by the uint16 index
generator loop. -/
theorem generate_quad_indices_u16_go_frame :
    ∀ (rem : Nat) (buffer : Nat → Nat) (offset b16 p : Nat), p < offset →
      generate_quad_indices_u16_go buffer offset b16 rem p = buffer p := by
  intro rem
  induction rem with
  | zero => intro buffer offset b16 p hp; rfl
  | succ n ih =>
    intro buffer offset b16 p hp
    simp only [generate_quad_indices_u16_go]
    rw [ih _ _ _ _ (by omega)]
    simp only [fupd]
    split_ifs <;> first | rfl | omega

/-- The six index values stored by the uint16 generator loop for quad k. -/
theorem generate_quad_indices_u16_go_values :
    ∀ (rem k : Nat) (buffer : Nat → Nat) (offset b16 : Nat), k < rem →
      generate_quad_indices_u16_go buffer offset b16 rem (offset + 6 * k) = (b16 + 4 * k + 1) % 65536 ∧
      generate_quad_indices_u16_go buffer offset b16 rem (offset + 6 * k + 1) = (b16 + 4 * k) % 65536 ∧
      generate_quad_indices_u16_go buffer offset b16 rem (offset + 6 * k + 2) = (b16 + 4 * k + 2) % 65536 ∧
      generate_quad_indices_u16_go buffer offset b16 rem (offset + 6 * k + 3) = (b16 + 4 * k + 2) % 65536 ∧
      generate_quad_indices_u16_go buffer offset b16 rem (offset + 6 * k + 4) = (b16 + 4 * k) % 65536 ∧
      generate_quad_indices_u16_go buffer offset b16 rem (offset + 6 * k + 5) = (b16 + 4 * k + 3) % 65536 := by
  intro rem
  induction rem with
  | zero => intro k buffer offset b16 hk; omega
  | succ n ih =>
    intro k buffer offset b16 hk
    cases k with
    | zero =>
      simp only [generate_quad_indices_u16_go]
      refine ⟨?_, ?_, ?_, ?_, ?_, ?_⟩ <;>
        (rw [generate_quad_indices_u16_go_frame n _ _ _ _ (by omega)] ;
         simp only [fupd] ;
         split_ifs <;> omega)
    | succ m =>
      have h1 := ih m (fupd (fupd (fupd (fupd (fupd (fupd buffer offset ((b16 + 1) % 65536))
        (offset + 1) ((b16 + 0) % 65536)) (offset + 2) ((b16 + 2) % 65536))
        (offset + 3) ((b16 + 2) % 65536)) (offset + 4) ((b16 + 0) % 65536))
        (offset + 5) ((b16 + 3) % 65536)) (offset + 6) ((b16 + 4) % 65536) (by omega)
      simp only [generate_quad_indices_u16_go]
      refine ⟨?_, ?_, ?_, ?_, ?_, ?_⟩
      · rw [show offset + 6 * (m + 1) = offset + 6 + 6 * m from by omega]
        rw [h1.1]; omega
      · rw [show offset + 6 * (m + 1) + 1 = offset + 6 + 6 * m + 1 from by omega]
        rw [h1.2.1]; omega
      · rw [show offset + 6 * (m + 1) + 2 = offset + 6 + 6 * m + 2 from by omega]
        rw [h1.2.2.1]; omega
      · rw [show offset + 6 * (m + 1) + 3 = offset + 6 + 6 * m + 3 from by omega]
        rw [h1.2.2.2.1]; omega
      · rw [show offset + 6 * (m + 1) + 4 = offset + 6 + 6 * m + 4 from by omega]
        rw [h1.2.2.2.2.1]; omega
      · rw [show offset + 6 * (m + 1) + 5 = offset + 6 + 6 * m + 5 from by omega]
        rw [h1.2.2.2.2.2]; omega

/-- Positions below the write offset are never touched by the uint32 index
generator loop. -/
theorem generate_quad_indices_u32_go_frame :
    ∀ (rem : Nat) (buffer : Nat → Nat) (offset b32 p : Nat), p < offset →
      generate_quad_indices_u32_go buffer offset b32 rem p = buffer p := by
  intro rem
  induction rem with
  | zero => intro buffer offset b32 p hp; rfl
  | succ n ih =>
    intro buffer offset b32 p hp
    simp only [generate_quad_indices_u32_go]
    rw [ih _ _ _ _ (by omega)]
    simp only [fupd]
    split_ifs <;> first | rfl | omega

/-- The six index values stored by the uint32 generator loop for quad k. -/
theorem generate_quad_indices_u32_go_values :
    ∀ (rem k : Nat) (buffer : Nat → Nat) (offset b32 : Nat), k < rem →
      generate_quad_indices_u32_go buffer offset b32 rem (offset + 6 * k) = (b32 + 4 * k + 1) % 4294967296 ∧
      generate_quad_indices_u32_go buffer offset b32 rem (offset + 6 * k + 1) = (b32 + 4 * k) % 4294967296 ∧
      generate_quad_indices_u32_go buffer offset b32 rem (offset + 6 * k + 2) = (b32 + 4 * k + 2) % 4294967296 ∧
      generate_quad_indices_u32_go buffer offset b32 rem (offset + 6 * k + 3) = (b32 + 4 * k + 2) % 4294967296 ∧
      generate_quad_indices_u32_go buffer offset b32 rem (offset + 6 * k + 4) = (b32 + 4 * k) % 4294967296 ∧
      generate_quad_indices_u32_go buffer offset b32 rem (offset + 6 * k + 5) = (b32 + 4 * k + 3) % 4294967296 := by
  intro rem
  induction rem with
  | zero => intro k buffer offset b32 hk; omega
  | succ n ih =>
    intro k buffer offset b32 hk
    cases k with
    | zero =>
      simp only [generate_quad_indices_u32_go]
      refine ⟨?_, ?_, ?_, ?_, ?_, ?_⟩ <;>
        (rw [generate_quad_indices_u32_go_frame n _ _ _ _ (by omega)] ;
         simp only [fupd] ;
         split_ifs <;> omega)
    | succ m =>
      have h1 := ih m (fupd (fupd (fupd (fupd (fupd (fupd buffer offset ((b32 + 1) % 4294967296))
        (offset + 1) ((b32 + 0) % 4294967296)) (offset + 2) ((b32 + 2) % 4294967296))
        (offset + 3) ((b32 + 2) % 4294967296)) (offset + 4) ((b32 + 0) % 4294967296))
        (offset + 5) ((b32 + 3) % 4294967296)) (offset + 6) ((b32 + 4) % 4294967296) (by omega)
      simp only [generate_quad_indices_u32_go]
      refine ⟨?_, ?_, ?_, ?_, ?_, ?_⟩
      · rw [show offset + 6 * (m + 1) = offset + 6 + 6 * m from by omega]
        rw [h1.1]; omega
      · rw [show offset + 6 * (m + 1) + 1 = offset + 6 + 6 * m + 1 from by omega]
        rw [h1.2.1]; omega
      · rw [show offset + 6 * (m + 1) + 2 = offset + 6 + 6 * m + 2 from by omega]
        rw [h1.2.2.1]; omega
      · rw [show offset + 6 * (m + 1) + 3 = offset + 6 + 6 * m + 3 from by omega]
        rw [h1.2.2.2.1]; omega
      · rw [show offset + 6 * (m + 1) + 4 = offset + 6 + 6 * m + 4 from by omega]
        rw [h1.2.2.2.2.1]; omega
      · rw [show offset + 6 * (m + 1) + 5 = offset + 6 + 6 * m + 5 from by omega]
        rw [h1.2.2.2.2.2]; omega

/-- C7: for every base vertex b and quad count n, the index generators write
for the k-th quad exactly the six indices B+1, B+0, B+2, B+2, B+0, B+3 with
B = b + 4k, where the values are the residues of those sums modulo the index
width (65536 for the uint16 generator, 4294967296 for the uint32 generator),
since the generators store to a 16 or 32 bit cell; the pattern is uniform in
b (translation invariance), as the statement quantifies over all b. -/
theorem c7_index_winding (buffer : Nat → Nat) (offset b n k : Nat) (hk : k < n) :
    (generate_quad_indices_u16 buffer offset b n (offset + 6 * k) = (b + 4 * k + 1) % 65536 ∧
     generate_quad_indices_u16 buffer offset b n (offset + 6 * k + 1) = (b + 4 * k) % 65536 ∧
     generate_quad_indices_u16 buffer offset b n (offset + 6 * k + 2) = (b + 4 * k + 2) % 65536 ∧
     generate_quad_indices_u16 buffer offset b n (offset + 6 * k + 3) = (b + 4 * k + 2) % 65536 ∧
     generate_quad_indices_u16 buffer offset b n (offset + 6 * k + 4) = (b + 4 * k) % 65536 ∧
     generate_quad_indices_u16 buffer offset b n (offset + 6 * k + 5) = (b + 4 * k + 3) % 65536) ∧
    (generate_quad_indices_u32 buffer offset b n (offset + 6 * k) = (b + 4 * k + 1) % 4294967296 ∧
     generate_quad_indices_u32 buffer offset b n (offset + 6 * k + 1) = (b + 4 * k) % 4294967296 ∧
     generate_quad_indices_u32 buffer offset b n (offset + 6 * k + 2) = (b + 4 * k + 2) % 4294967296 ∧
     generate_quad_indices_u32 buffer offset b n (offset + 6 * k + 3) = (b + 4 * k + 2) % 4294967296 ∧
     generate_quad_indices_u32 buffer offset b n (offset + 6 * k + 4) = (b + 4 * k) % 4294967296 ∧
     generate_quad_indices_u32 buffer offset b n (offset + 6 * k + 5) = (b + 4 * k + 3) % 4294967296) := by
  unfold generate_quad_indices_u16 generate_quad_indices_u32
  refine ⟨⟨?_, ?_, ?_, ?_, ?_, ?_⟩, ⟨?_, ?_, ?_, ?_, ?_, ?_⟩⟩
  · have h := (generate_quad_indices_u16_go_values n k buffer offset (b % 65536) hk).1
    rw [h]; clear h; omega
  · have h := (generate_quad_indices_u16_go_values n k buffer offset (b % 65536) hk).2.1
    rw [h]; clear h; omega
  · have h := (generate_quad_indices_u16_go_values n k buffer offset (b % 65536) hk).2.2.1
    rw [h]; clear h; omega
  · have h := (generate_quad_indices_u16_go_values n k buffer offset (b % 65536) hk).2.2.2.1
    rw [h]; clear h; omega
  · have h := (generate_quad_indices_u16_go_values n k buffer offset (b % 65536) hk).2.2.2.2.1
    rw [h]; clear h; omega
  · have h := (generate_quad_indices_u16_go_values n k buffer offset (b % 65536) hk).2.2.2.2.2
    rw [h]; clear h; omega
  · have h := (generate_quad_indices_u32_go_values n k buffer offset (b % 4294967296) hk).1
    rw [h]; clear h; omega
  · have h := (generate_quad_indices_u32_go_values n k buffer offset (b % 4294967296) hk).2.1
    rw [h]; clear h; omega
  · have h := (generate_quad_indices_u32_go_values n k buffer offset (b % 4294967296) hk).2.2.1
    rw [h]; clear h; omega
  · have h := (generate_quad_indices_u32_go_values n k buffer offset (b % 4294967296) hk).2.2.2.1
    rw [h]; clear h; omega
  · have h := (generate_quad_indices_u32_go_values n k buffer offset (b % 4294967296) hk).2.2.2.2.1
    rw [h]; clear h; omega
  · have h := (generate_quad_indices_u32_go_values n k buffer offset (b % 4294967296) hk).2.2.2.2.2
    rw [h]; clear h; omega

/-- C7 witness: quad 1 of 2 at base vertex 65534 in the uint16 generator;
the first stored index wraps to (65534 + 4 + 1) mod 65536 = 3. -/
theorem c7_index_winding_witness :
    generate_quad_indices_u16 c7_buffer 0 65534 2 (0 + 6 * 1) = (65534 + 4 * 1 + 1) % 65536 ∧
    generate_quad_indices_u32 c7_buffer 0 65534 2 (0 + 6 * 1) = (65534 + 4 * 1 + 1) % 4294967296 ∧
    (1 : Nat) < 2 :=
  ⟨(c7_index_winding c7_buffer 0 65534 2 1 (by decide)).1.1,
   (c7_index_winding c7_buffer 0 65534 2 1 (by decide)).2.1, by decide⟩

/-- The code comparator back_to_front decides exactly the specification
order: layer depth descending, render state ascending, index ascending. -/
theorem back_to_front_iff (s : Nat → qsdata_t) (ia ib : Nat) :
    back_to_front s ia ib = true ↔ b2f_order s ia ib := by
  simp only [back_to_front, b2f_order]
  split_ifs <;> simp <;> omega

/-- The code comparator front_to_back decides exactly the specification
order: layer depth ascending, render state ascending, index descending. -/
theorem front_to_back_iff (s : Nat → qsdata_t) (ia ib : Nat) :
    front_to_back s ia ib = true ↔ f2b_order s ia ib := by
  simp only [front_to_back, f2b_order]
  split_ifs <;> simp <;> omega

/-- The code comparator by_render_state decides exactly the specification
order: render state ascending, index ascending, depth ignored. -/
theorem by_render_state_iff (s : Nat → qsdata_t) (ia ib : Nat) :
    by_render_state s ia ib = true ↔ brs_order s ia ib := by
  simp only [by_render_state, brs_order]
  split_ifs <;> simp <;> omega

/-- C6: each of the three sort comparators is a strict total order on
distinct order array entries (irreflexive, transitive, and for distinct
indices exactly one direction holds) and coincides with the lexicographic
order stated by the specification: back_to_front is layer depth descending
then render state ascending then index ascending; front_to_back is layer
depth ascending then render state ascending then index descending;
by_render_state is render state ascending then index ascending, ignoring
layer depth. -/
theorem c6_sort_comparators (s : Nat → qsdata_t) :
    (∀ a, back_to_front s a a = false) ∧
    (∀ a b c, back_to_front s a b = true → back_to_front s b c = true →
      back_to_front s a c = true) ∧
    (∀ a b, a ≠ b → (back_to_front s a b = true ↔ ¬ back_to_front s b a = true)) ∧
    (∀ a b, back_to_front s a b = true ↔ b2f_order s a b) ∧
    (∀ a, front_to_back s a a = false) ∧
    (∀ a b c, front_to_back s a b = true → front_to_back s b c = true →
      front_to_back s a c = true) ∧
    (∀ a b, a ≠ b → (front_to_back s a b = true ↔ ¬ front_to_back s b a = true)) ∧
    (∀ a b, front_to_back s a b = true ↔ f2b_order s a b) ∧
    (∀ a, by_render_state s a a = false) ∧
    (∀ a b c, by_render_state s a b = true → by_render_state s b c = true →
      by_render_state s a c = true) ∧
    (∀ a b, a ≠ b → (by_render_state s a b = true ↔ ¬ by_render_state s b a = true)) ∧
    (∀ a b, by_render_state s a b = true ↔ brs_order s a b) := by
  refine ⟨?_, ?_, ?_, back_to_front_iff s, ?_, ?_, ?_, front_to_back_iff s,
    ?_, ?_, ?_, by_render_state_iff s⟩
  · intro a
    rw [Bool.eq_false_iff]
    intro hb
    have h := (back_to_front_iff s a a).1 hb
    simp only [b2f_order] at h
    omega
  · intro a b c hab hbc
    rw [back_to_front_iff] at hab hbc ⊢
    simp only [b2f_order] at hab hbc ⊢
    omega
  · intro a b hab
    rw [back_to_front_iff, back_to_front_iff]
    simp only [b2f_order]
    omega
  · intro a
    rw [Bool.eq_false_iff]
    intro hb
    have h := (front_to_back_iff s a a).1 hb
    simp only [f2b_order] at h
    omega
  · intro a b c hab hbc
    rw [front_to_back_iff] at hab hbc ⊢
    simp only [f2b_order] at hab hbc ⊢
    omega
  · intro a b hab
    rw [front_to_back_iff, front_to_back_iff]
    simp only [f2b_order]
    omega
  · intro a
    rw [Bool.eq_false_iff]
    intro hb
    have h := (by_render_state_iff s a a).1 hb
    simp only [brs_order] at h
    omega
  · intro a b c hab hbc
    rw [by_render_state_iff] at hab hbc ⊢
    simp only [brs_order] at hab hbc ⊢
    omega
  · intro a b hab
    rw [by_render_state_iff, by_render_state_iff]
    simp only [brs_order]
    omega

/-- C6 witness: on the concrete key array c6_state, transitivity of
back_to_front yields 0 before 2, and totality on the distinct pair 0, 1
yields the equivalence, with every hypothesis discharged concretely. -/
theorem c6_sort_comparators_witness :
    back_to_front c6_state 0 2 = true ∧
    (back_to_front c6_state 0 1 = true ↔ ¬ back_to_front c6_state 1 0 = true) :=
  ⟨(c6_sort_comparators c6_state).2.1 0 1 2 (by decide) (by decide),
   (c6_sort_comparators c6_state).2.2.1 0 1 (by decide)⟩

/-- A Flush empties the queued sprite list and emits exactly one submission
event carrying the previously queued sprites and the pre flush effect state
when anything was queued, and nothing otherwise. -/
theorem SpriteBatch_Flush_spec {σ : Type} (b : SpriteBatch σ) :
    (b.Flush).1.SpriteData = [] ∧
    (b.Flush).2 = (if 0 < b.SpriteData.length then
      [flush_event.submit b.SpriteData b.EffectData] else []) := by
  unfold SpriteBatch.Flush
  dsimp only
  split_ifs with h
  · exact ⟨rfl, rfl⟩
  · refine ⟨?_, rfl⟩
    have : b.SpriteData.length = 0 := by omega
    simpa [List.length_eq_zero] using this

/-- C8: every blend preset switch on a SpriteBatch first flushes the queued,
not yet drawn sprites: the emitted submission event carries the old queued
sprite list together with the old effect state, so the flush draw uses the
blend fields as they were before the switch, and the queued list is empty
afterwards.  After the switch the blend fields of the effect equal the
preset values, whose constant blend color is zero in all four presets. -/
theorem c8_blend_switch_flushes_first {σ : Type} (b : SpriteBatch σ) :
    ((b.SetBlendModeNone).1.SpriteData = [] ∧
     (b.SetBlendModeNone).2 = (if 0 < b.SpriteData.length then
       [flush_event.submit b.SpriteData b.EffectData] else []) ∧
     blend_of (b.SetBlendModeNone).1.EffectData = blend_none_values) ∧
    ((b.SetBlendModeAlpha).1.SpriteData = [] ∧
     (b.SetBlendModeAlpha).2 = (if 0 < b.SpriteData.length then
       [flush_event.submit b.SpriteData b.EffectData] else []) ∧
     blend_of (b.SetBlendModeAlpha).1.EffectData = blend_alpha_values) ∧
    ((b.SetBlendModeAdditive).1.SpriteData = [] ∧
     (b.SetBlendModeAdditive).2 = (if 0 < b.SpriteData.length then
       [flush_event.submit b.SpriteData b.EffectData] else []) ∧
     blend_of (b.SetBlendModeAdditive).1.EffectData = blend_additive_values) ∧
    ((b.SetBlendModePremultiplied).1.SpriteData = [] ∧
     (b.SetBlendModePremultiplied).2 = (if 0 < b.SpriteData.length then
       [flush_event.submit b.SpriteData b.EffectData] else []) ∧
     blend_of (b.SetBlendModePremultiplied).1.EffectData = blend_premultiplied_values) ∧
    (blend_none_values.Color0 = 0 ∧ blend_none_values.Color1 = 0 ∧
     blend_none_values.Color2 = 0 ∧ blend_none_values.Color3 = 0) ∧
    (blend_alpha_values.Color0 = 0 ∧ blend_alpha_values.Color1 = 0 ∧
     blend_alpha_values.Color2 = 0 ∧ blend_alpha_values.Color3 = 0) ∧
    (blend_additive_values.Color0 = 0 ∧ blend_additive_values.Color1 = 0 ∧
     blend_additive_values.Color2 = 0 ∧ blend_additive_values.Color3 = 0) ∧
    (blend_premultiplied_values.Color0 = 0 ∧ blend_premultiplied_values.Color1 = 0 ∧
     blend_premultiplied_values.Color2 = 0 ∧ blend_premultiplied_values.Color3 = 0) := by
  obtain ⟨h1, h2⟩ := SpriteBatch_Flush_spec b
  exact ⟨⟨h1, h2, rfl⟩, ⟨h1, h2, rfl⟩, ⟨h1, h2, rfl⟩, ⟨h1, h2, rfl⟩,
    ⟨rfl, rfl, rfl, rfl⟩, ⟨rfl, rfl, rfl, rfl⟩, ⟨rfl, rfl, rfl, rfl⟩, ⟨rfl, rfl, rfl, rfl⟩⟩

/-- Combined behaviour of sprite_effect_buffer_data_ptc on a well formed
effect satisfying the cursor coupling invariant: the invariant and the
capacity well formedness are preserved, the capacities are untouched, the
cursors advance from their post orphan values by exactly four vertices and
six indices per buffered quad, and when at least one quad is requested and
the vertex capacity holds at least one quad the call buffers at least one
quad. -/
theorem sprite_effect_buffer_data_ptc_spec (e : sprite_effect_t) (qc ba : Nat)
    (hwf : sprite_effect_wf e) (hinv : cursor_inv e) :
    sprite_effect_wf (sprite_effect_buffer_data_ptc e qc ba).1 ∧
    cursor_inv (sprite_effect_buffer_data_ptc e qc ba).1 ∧
    (sprite_effect_buffer_data_ptc e qc ba).1.VertexCapacity = e.VertexCapacity ∧
    (sprite_effect_buffer_data_ptc e qc ba).1.IndexCapacity = e.IndexCapacity ∧
    (sprite_effect_buffer_data_ptc e qc ba).1.VertexOffset =
      (if e.VertexOffset = e.VertexCapacity then 0 else e.VertexOffset) +
        (sprite_effect_buffer_data_ptc e qc ba).2.1 * 4 ∧
    (sprite_effect_buffer_data_ptc e qc ba).1.IndexOffset =
      (if e.VertexOffset = e.VertexCapacity then 0 else e.IndexOffset) +
        (sprite_effect_buffer_data_ptc e qc ba).2.1 * 6 ∧
    (1 ≤ qc → 4 ≤ e.VertexCapacity → 1 ≤ (sprite_effect_buffer_data_ptc e qc ba).2.1) := by
  obtain ⟨hw1, hw2⟩ := hwf
  obtain ⟨hi1, hi2, hi3, hi4⟩ := hinv
  simp only [sprite_effect_buffer_data_ptc, sprite_effect_wf, cursor_inv]
  split_ifs <;> simp_all <;> omega

/-- C9: after create_sprite_effect the effect satisfies the cursor coupling
invariant (VertexOffset is a multiple of 4, IndexOffset equals VertexOffset
divided by 4 times 6, both cursors within capacity), and the invariant is
preserved by every sprite_effect_buffer_data_ptc call on a well formed
effect; moreover each call buffers a whole number n of quads, advancing the
cursors from their post orphan values by exactly 4n vertices and 6n indices,
so no partial quad is ever written. -/
theorem c9_cursor_coupling :
    (∀ qc vsz isz, sprite_effect_wf (create_sprite_effect qc vsz isz) ∧
      cursor_inv (create_sprite_effect qc vsz isz)) ∧
    (∀ e qc ba, sprite_effect_wf e → cursor_inv e →
      cursor_inv (sprite_effect_buffer_data_ptc e qc ba).1 ∧
      (sprite_effect_buffer_data_ptc e qc ba).1.VertexOffset =
        (if e.VertexOffset = e.VertexCapacity then 0 else e.VertexOffset) +
          (sprite_effect_buffer_data_ptc e qc ba).2.1 * 4 ∧
      (sprite_effect_buffer_data_ptc e qc ba).1.IndexOffset =
        (if e.VertexOffset = e.VertexCapacity then 0 else e.IndexOffset) +
          (sprite_effect_buffer_data_ptc e qc ba).2.1 * 6) := by
  refine ⟨?_, ?_⟩
  · intro qc vsz isz
    simp [create_sprite_effect, sprite_effect_wf, cursor_inv]
  · intro e qc ba hwf hinv
    obtain ⟨_, h2, _, _, h5, h6, _⟩ := sprite_effect_buffer_data_ptc_spec e qc ba hwf hinv
    exact ⟨h2, h5, h6⟩

/-- C9 witness: the invariant holds after one buffering call on a freshly
created two quad effect, with the creation time invariant discharged
concretely. -/
theorem c9_cursor_coupling_witness :
    cursor_inv (sprite_effect_buffer_data_ptc (create_sprite_effect 2 20 2) 1 0).1 ∧
    (sprite_effect_buffer_data_ptc (create_sprite_effect 2 20 2) 1 0).1.VertexOffset =
      (if (create_sprite_effect 2 20 2).VertexOffset = (create_sprite_effect 2 20 2).VertexCapacity
       then 0 else (create_sprite_effect 2 20 2).VertexOffset) +
        (sprite_effect_buffer_data_ptc (create_sprite_effect 2 20 2) 1 0).2.1 * 4 ∧
    (sprite_effect_buffer_data_ptc (create_sprite_effect 2 20 2) 1 0).1.IndexOffset =
      (if (create_sprite_effect 2 20 2).VertexOffset = (create_sprite_effect 2 20 2).VertexCapacity
       then 0 else (create_sprite_effect 2 20 2).IndexOffset) +
        (sprite_effect_buffer_data_ptc (create_sprite_effect 2 20 2) 1 0).2.1 * 6 :=
  c9_cursor_coupling.2 (create_sprite_effect 2 20 2) 1 0
    (by unfold sprite_effect_wf; decide) (by unfold cursor_inv; decide)

/-- The draw batch loop reaches zero remaining quads within a fuel budget of
one iteration per remaining quad, because every iteration on a well formed
effect with capacity for at least one quad buffers at least one quad. -/
theorem draw_batch_go_complete :
    ∀ (fuel : Nat) (e : sprite_effect_t) (qi qc bi : Nat), qc ≤ fuel →
      sprite_effect_wf e → cursor_inv e → 4 ≤ e.VertexCapacity →
      (draw_batch_go e qi qc bi fuel).2 = true := by
  intro fuel
  induction fuel with
  | zero =>
    intro e qi qc bi hf hwf hinv hcap
    have : qc = 0 := by omega
    subst this
    rfl
  | succ f ih =>
    intro e qi qc bi hf hwf hinv hcap
    by_cases hqc : qc = 0
    · subst hqc
      rfl
    · simp only [draw_batch_go, if_neg hqc]
      obtain ⟨hw2, hi2, hvc, _, _, _, hpos⟩ :=
        sprite_effect_buffer_data_ptc_spec e qc bi hwf hinv
      have hn : 1 ≤ (sprite_effect_buffer_data_ptc e qc bi).2.1 := hpos (by omega) hcap
      exact ih _ _ _ _ (by omega) hw2 hi2 (by omega)

/-- C10: for every effect satisfying the cursor coupling invariant with
vertex capacity at least one quad, the loop of sprite_effect_draw_batch_ptc
terminates: a fuel budget equal to the batch count suffices, because every
iteration buffers at least one quad (after an orphan reset when the vertex
cursor sits at capacity), so the remaining count strictly decreases. -/
theorem c10_draw_batch_terminates (e : sprite_effect_t) (count : Nat)
    (hwf : sprite_effect_wf e) (hinv : cursor_inv e) (hcap : 4 ≤ e.VertexCapacity) :
    (sprite_effect_draw_batch_ptc e count count).2 = true := by
  unfold sprite_effect_draw_batch_ptc
  exact draw_batch_go_complete count _ 0 count 0 (Nat.le_refl _) hwf hinv hcap

/-- C10 witness: a batch of 10 quads drawn through a three quad effect
terminates within its fuel budget. -/
theorem c10_draw_batch_terminates_witness :
    (sprite_effect_draw_batch_ptc (create_sprite_effect 3 20 2) 10 10).2 = true :=
  c10_draw_batch_terminates (create_sprite_effect 3 20 2) 10
    (by unfold sprite_effect_wf; decide) (by unfold cursor_inv; decide) (by decide)

/-- C1 counterexample: with capacity for exactly K = 1 quad, a first call
requesting K + 5 = 6 quads returns 1 (the clamp), the buffer is then full,
and the immediately following call for the remaining 5 quads performs the
orphan reset but returns 1 again, not 5: the second call also clamps to the
whole capacity, so the claimed return value 5 is wrong whenever K < 5. -/
theorem c1_partial_buffering_counterexample :
    (sprite_effect_buffer_data_ptc (create_sprite_effect 1 20 2) 6 0).2.1 = 1 ∧
    (sprite_effect_buffer_data_ptc (create_sprite_effect 1 20 2) 6 0).1.VertexOffset =
      (sprite_effect_buffer_data_ptc (create_sprite_effect 1 20 2) 6 0).1.VertexCapacity ∧
    (sprite_effect_buffer_data_ptc
      (sprite_effect_buffer_data_ptc (create_sprite_effect 1 20 2) 6 0).1 5 0).2.1 = 1 ∧
    ¬ (sprite_effect_buffer_data_ptc
      (sprite_effect_buffer_data_ptc (create_sprite_effect 1 20 2) 6 0).1 5 0).2.1 = 5 := by
  decide

/-- C1 (amended): for an effect created with capacity for exactly K quads
(K at least 1) and both cursors at zero, a call requesting K + 5 quads
returns exactly K, clamping to the remaining space, and leaves both cursors
at capacity; the immediately following call for the remaining 5 quads first
resets both write cursors to zero (the orphan reset, triggered because the
vertex cursor equals the vertex capacity) and then returns min 5 K — which
is the claimed value 5 exactly when K is at least 5 — with the cursors
counted from zero afterwards and the returned base index equal to 0. -/
theorem c1_partial_buffering_orphan (K vs isz : Nat) (hK : 1 ≤ K)
    (r1 r2 : sprite_effect_t × Nat × Nat)
    (h1 : r1 = sprite_effect_buffer_data_ptc (create_sprite_effect K vs isz) (K + 5) 0)
    (h2 : r2 = sprite_effect_buffer_data_ptc r1.1 5 0) :
    r1.2.1 = K ∧ r1.2.2 = 0 ∧
    r1.1.VertexOffset = r1.1.VertexCapacity ∧ r1.1.IndexOffset = r1.1.IndexCapacity ∧
    r2.2.1 = min 5 K ∧ r2.2.2 = 0 ∧
    r2.1.VertexOffset = min 5 K * 4 ∧ r2.1.IndexOffset = min 5 K * 6 := by
  have A :
      (sprite_effect_buffer_data_ptc (create_sprite_effect K vs isz) (K + 5) 0).2.1 = K ∧
      (sprite_effect_buffer_data_ptc (create_sprite_effect K vs isz) (K + 5) 0).2.2 = 0 ∧
      (sprite_effect_buffer_data_ptc (create_sprite_effect K vs isz) (K + 5) 0).1.VertexOffset = K * 4 ∧
      (sprite_effect_buffer_data_ptc (create_sprite_effect K vs isz) (K + 5) 0).1.IndexOffset = K * 6 ∧
      (sprite_effect_buffer_data_ptc (create_sprite_effect K vs isz) (K + 5) 0).1.VertexCapacity = K * 4 ∧
      (sprite_effect_buffer_data_ptc (create_sprite_effect K vs isz) (K + 5) 0).1.IndexCapacity = K * 6 := by
    simp only [sprite_effect_buffer_data_ptc, create_sprite_effect]
    split_ifs <;> simp_all
  obtain ⟨a1, a2, a3, a4, a5, a6⟩ := A
  rw [h1] at h2
  subst h1
  have B :
      r2.2.1 = min 5 K ∧ r2.2.2 = 0 ∧
      r2.1.VertexOffset = min 5 K * 4 ∧ r2.1.IndexOffset = min 5 K * 6 := by
    rw [h2]
    generalize hg : (sprite_effect_buffer_data_ptc (create_sprite_effect K vs isz) (K + 5) 0).1 = e1
    rw [hg] at a3 a4 a5 a6
    simp only [sprite_effect_buffer_data_ptc]
    simp only [a3, a4, a5, a6]
    split_ifs <;> simp_all <;> omega
  obtain ⟨b1, b2, b3, b4⟩ := B
  exact ⟨a1, a2, by omega, by omega, b1, b2, b3, b4⟩

/-- C1 witness: the amended statement at K = 7, where min 5 K = 5 and the
second call returns exactly 5 after the orphan reset. -/
theorem c1_partial_buffering_orphan_witness :
    (sprite_effect_buffer_data_ptc (create_sprite_effect 7 20 2) (7 + 5) 0).2.1 = 7 ∧
    (sprite_effect_buffer_data_ptc (create_sprite_effect 7 20 2) (7 + 5) 0).2.2 = 0 ∧
    (sprite_effect_buffer_data_ptc (create_sprite_effect 7 20 2) (7 + 5) 0).1.VertexOffset =
      (sprite_effect_buffer_data_ptc (create_sprite_effect 7 20 2) (7 + 5) 0).1.VertexCapacity ∧
    (sprite_effect_buffer_data_ptc (create_sprite_effect 7 20 2) (7 + 5) 0).1.IndexOffset =
      (sprite_effect_buffer_data_ptc (create_sprite_effect 7 20 2) (7 + 5) 0).1.IndexCapacity ∧
    (sprite_effect_buffer_data_ptc
      (sprite_effect_buffer_data_ptc (create_sprite_effect 7 20 2) (7 + 5) 0).1 5 0).2.1 = min 5 7 ∧
    (sprite_effect_buffer_data_ptc
      (sprite_effect_buffer_data_ptc (create_sprite_effect 7 20 2) (7 + 5) 0).1 5 0).2.2 = 0 ∧
    (sprite_effect_buffer_data_ptc
      (sprite_effect_buffer_data_ptc (create_sprite_effect 7 20 2) (7 + 5) 0).1 5 0).1.VertexOffset = min 5 7 * 4 ∧
    (sprite_effect_buffer_data_ptc
      (sprite_effect_buffer_data_ptc (create_sprite_effect 7 20 2) (7 + 5) 0).1 5 0).1.IndexOffset = min 5 7 * 6 :=
  c1_partial_buffering_orphan 7 20 2 (by decide) _ _ rfl rfl

/-- Slots outside the written range are untouched by generate_quads. -/
theorem generate_quads_frame {α : Type} [Field α] :
    ∀ (count : Nat) (quads : Nat → quad_t α) (sdata : Nat → qsdata_t) (indices : Nat → Nat)
      (qofs : Nat) (sprites : Nat → sprite_t α) (sofs n : Nat),
      n < qofs ∨ qofs + count ≤ n →
      (generate_quads quads sdata indices qofs sprites sofs count).1 n = quads n ∧
      (generate_quads quads sdata indices qofs sprites sofs count).2.1 n = sdata n ∧
      (generate_quads quads sdata indices qofs sprites sofs count).2.2 n = indices n := by
  intro count
  induction count with
  | zero =>
    intro quads sdata indices qofs sprites sofs n hn
    exact ⟨rfl, rfl, rfl⟩
  | succ m ih =>
    intro quads sdata indices qofs sprites sofs n hn
    simp only [generate_quads]
    have h3 := ih (fupd quads qofs (quad_of_sprite (sprites sofs)))
      (fupd sdata qofs ⟨(sprites sofs).LayerDepth, (sprites sofs).RenderState⟩)
      (fupd indices qofs qofs) (qofs + 1) sprites (sofs + 1) n (by omega)
    refine ⟨?_, ?_, ?_⟩
    · rw [h3.1]
      simp only [fupd]
      rw [if_neg (by omega)]
    · rw [h3.2.1]
      simp only [fupd]
      rw [if_neg (by omega)]
    · rw [h3.2.2]
      simp only [fupd]
      rw [if_neg (by omega)]

/-- The values written by generate_quads at each in range slot. -/
theorem generate_quads_values {α : Type} [Field α] :
    ∀ (count : Nat) (quads : Nat → quad_t α) (sdata : Nat → qsdata_t) (indices : Nat → Nat)
      (qofs : Nat) (sprites : Nat → sprite_t α) (sofs i : Nat), i < count →
      (generate_quads quads sdata indices qofs sprites sofs count).1 (qofs + i) =
        quad_of_sprite (sprites (sofs + i)) ∧
      (generate_quads quads sdata indices qofs sprites sofs count).2.1 (qofs + i) =
        ⟨(sprites (sofs + i)).LayerDepth, (sprites (sofs + i)).RenderState⟩ ∧
      (generate_quads quads sdata indices qofs sprites sofs count).2.2 (qofs + i) = qofs + i := by
  intro count
  induction count with
  | zero => intro quads sdata indices qofs sprites sofs i hi; omega
  | succ m ih =>
    intro quads sdata indices qofs sprites sofs i hi
    simp only [generate_quads]
    cases i with
    | zero =>
      have h3 := generate_quads_frame m
        (fupd quads qofs (quad_of_sprite (sprites sofs)))
        (fupd sdata qofs ⟨(sprites sofs).LayerDepth, (sprites sofs).RenderState⟩)
        (fupd indices qofs qofs) (qofs + 1) sprites (sofs + 1) qofs (by omega)
      simp only [Nat.add_zero]
      refine ⟨?_, ?_, ?_⟩
      · rw [h3.1]
        simp [fupd]
      · rw [h3.2.1]
        simp [fupd]
      · rw [h3.2.2]
        simp [fupd]
    | succ j =>
      have h3 := ih (fupd quads qofs (quad_of_sprite (sprites sofs)))
        (fupd sdata qofs ⟨(sprites sofs).LayerDepth, (sprites sofs).RenderState⟩)
        (fupd indices qofs qofs) (qofs + 1) sprites (sofs + 1) j (by omega)
      rw [show qofs + (j + 1) = qofs + 1 + j from by omega,
          show sofs + (j + 1) = sofs + 1 + j from by omega]
      exact h3

/-- C4: generate_quads produces, index for index at the destination offset,
a quad whose target rectangle is (ScreenX, ScreenY, ImageWidth times ScaleX,
ImageHeight times ScaleY), whose source rectangle is (ImageX, ImageY,
ImageWidth, ImageHeight), with origin, orientation and tint copied verbatim
and UV scale factors the reciprocals of the texture dimensions; a sort key
record (LayerDepth, RenderState) copied verbatim; and the order slot at each
written position set to its own index (identity order); no slot outside the
written range of any of the three arrays is modified. -/
theorem c4_generate_quads {α : Type} [Field α] (quads : Nat → quad_t α)
    (sdata : Nat → qsdata_t) (indices : Nat → Nat) (qofs : Nat)
    (sprites : Nat → sprite_t α) (sofs count : Nat) :
    (∀ i, i < count →
      (generate_quads quads sdata indices qofs sprites sofs count).1 (qofs + i) =
        { SourceX := ((sprites (sofs + i)).ImageX : α)
          SourceY := ((sprites (sofs + i)).ImageY : α)
          SourceW := ((sprites (sofs + i)).ImageWidth : α)
          SourceH := ((sprites (sofs + i)).ImageHeight : α)
          TargetX := (sprites (sofs + i)).ScreenX
          TargetY := (sprites (sofs + i)).ScreenY
          TargetW := ((sprites (sofs + i)).ImageWidth : α) * (sprites (sofs + i)).ScaleX
          TargetH := ((sprites (sofs + i)).ImageHeight : α) * (sprites (sofs + i)).ScaleY
          OriginX := (sprites (sofs + i)).OriginX
          OriginY := (sprites (sofs + i)).OriginY
          ScaleU := 1 / ((sprites (sofs + i)).TextureWidth : α)
          ScaleV := 1 / ((sprites (sofs + i)).TextureHeight : α)
          Orientation := (sprites (sofs + i)).Orientation
          TintColor := (sprites (sofs + i)).TintColor } ∧
      (generate_quads quads sdata indices qofs sprites sofs count).2.1 (qofs + i) =
        ⟨(sprites (sofs + i)).LayerDepth, (sprites (sofs + i)).RenderState⟩ ∧
      (generate_quads quads sdata indices qofs sprites sofs count).2.2 (qofs + i) = qofs + i) ∧
    (∀ n, n < qofs ∨ qofs + count ≤ n →
      (generate_quads quads sdata indices qofs sprites sofs count).1 n = quads n ∧
      (generate_quads quads sdata indices qofs sprites sofs count).2.1 n = sdata n ∧
      (generate_quads quads sdata indices qofs sprites sofs count).2.2 n = indices n) :=
  ⟨fun i hi => generate_quads_values count quads sdata indices qofs sprites sofs i hi,
   fun n hn => generate_quads_frame count quads sdata indices qofs sprites sofs n hn⟩

/-- C4 witness: one sprite generated at destination offset 2, checking the
written quad, sort key and identity order slot, and one untouched slot. -/
theorem c4_generate_quads_witness :
    (generate_quads c4_quads0 c4_sdata0 c4_indices0 2 c4_sprites 0 1).2.2 (2 + 0) = 2 + 0 ∧
    (generate_quads c4_quads0 c4_sdata0 c4_indices0 2 c4_sprites 0 1).2.1 (2 + 0) =
      ⟨(c4_sprites (0 + 0)).LayerDepth, (c4_sprites (0 + 0)).RenderState⟩ ∧
    (generate_quads c4_quads0 c4_sdata0 c4_indices0 2 c4_sprites 0 1).2.2 0 = c4_indices0 0 :=
  ⟨((c4_generate_quads c4_quads0 c4_sdata0 c4_indices0 2 c4_sprites 0 1).1 0 (by decide)).2.2,
   ((c4_generate_quads c4_quads0 c4_sdata0 c4_indices0 2 c4_sprites 0 1).1 0 (by decide)).2.1,
   ((c4_generate_quads c4_quads0 c4_sdata0 c4_indices0 2 c4_sprites 0 1).2 0 (by omega)).2.2⟩

/-- Position 4i + j of the vertex generator loop output is corner j of the
quad selected by the order entry at the running position i. -/
theorem generate_quad_vertices_ptc_go_get {α : Type} [Field α] (sin cos : α → α)
    (quads : Nat → quad_t α) (indices : Nat → Nat) (qofs : Nat) :
    ∀ (rem i0 i j : Nat), i < rem → j < 4 →
      (generate_quad_vertices_ptc_go sin cos quads indices qofs i0 rem)[4 * i + j]? =
        some (quad_vertex_ptc sin cos (quads (indices (qofs + (i0 + i)))) j) := by
  intro rem
  induction rem with
  | zero => intro i0 i j hi hj; omega
  | succ n ih =>
    intro i0 i j hi hj
    simp only [generate_quad_vertices_ptc_go]
    cases i with
    | zero =>
      rw [List.getElem?_append_left (by simp [quad_vertices_ptc]; omega)]
      simp only [Nat.mul_zero, Nat.zero_add, Nat.add_zero]
      interval_cases j <;> simp [quad_vertices_ptc]
    | succ m =>
      rw [List.getElem?_append_right (by simp [quad_vertices_ptc]; omega)]
      have hlen : (quad_vertices_ptc sin cos (quads (indices (qofs + i0)))).length = 4 := rfl
      rw [hlen, show 4 * (m + 1) + j - 4 = 4 * m + j from by omega]
      rw [ih (i0 + 1) m j (by omega) hj]
      rw [show i0 + 1 + m = i0 + (m + 1) from by omega]

/-- Corner vertex produced by the code equals the specification formula,
given that the quad UV scale factors are the reciprocal texture dimensions. -/
theorem quad_vertex_ptc_eq_spec {α : Type} [Field α] (sin cos : α → α) (q : quad_t α)
    (texW texH : α) (j : Nat) (hU : q.ScaleU = 1 / texW) (hV : q.ScaleV = 1 / texH) :
    quad_vertex_ptc sin cos q j = spec_vertex_ptc sin cos texW texH q j := by
  simp only [quad_vertex_ptc, spec_vertex_ptc, hU, hV]

/-- C3: for every quad and each of the four fractional corners (0,0), (1,0),
(1,1), (0,1) taken in that order, generate_quad_vertices_ptc writes at
position 4i + j a vertex equal to the specification formula: screen position
is the local offset ((fx - originX/srcW) targetW, (fy - originY/srcH)
targetH) rotated by the orientation about (targetX, targetY); the UV is
u = (srcX + fx srcW) / texW and v = 1 - (srcY + fy srcH) / texH (V flipped);
the packed color is the tint, under the preconditions that srcW and srcH are
nonzero and the quad scale factors are the reciprocal texture dimensions. -/
theorem c3_vertex_derivation {α : Type} [Field α] (sin cos : α → α)
    (quads : Nat → quad_t α) (indices : Nat → Nat) (qofs qcount : Nat) (texW texH : α)
    (i j : Nat) (hi : i < qcount) (hj : j < 4)
    (hW : (quads (indices (qofs + i))).SourceW ≠ 0)
    (hH : (quads (indices (qofs + i))).SourceH ≠ 0)
    (hU : (quads (indices (qofs + i))).ScaleU = 1 / texW)
    (hV : (quads (indices (qofs + i))).ScaleV = 1 / texH) :
    (generate_quad_vertices_ptc sin cos quads indices qofs qcount)[4 * i + j]? =
      some (spec_vertex_ptc sin cos texW texH (quads (indices (qofs + i))) j) := by
  unfold generate_quad_vertices_ptc
  rw [generate_quad_vertices_ptc_go_get sin cos quads indices qofs qcount 0 i j hi hj]
  rw [Nat.zero_add]
  rw [quad_vertex_ptc_eq_spec sin cos _ texW texH j hU hV]

/-- C3 witness: corner 1 of the single concrete quad, evaluated over the
rationals with the abstract sine and cosine instantiated concretely. -/
theorem c3_vertex_derivation_witness :
    (generate_quad_vertices_ptc c3_sin c3_cos c3_quads c3_indices 0 1)[4 * 0 + 1]? =
      some (spec_vertex_ptc c3_sin c3_cos (16 : ℚ) 32 (c3_quads (c3_indices (0 + 0))) 1) :=
  c3_vertex_derivation c3_sin c3_cos c3_quads c3_indices 0 1 16 32 0 1
    (by norm_num) (by norm_num) (by norm_num [c3_quads, c3_quad, c3_indices])
    (by norm_num [c3_quads, c3_quad, c3_indices]) rfl rfl

/-- C2 (amended): for every order and state array in which the order entries
at positions 0 to 2 carry render state A and positions 3 to 5 carry render
state B, with A distinct from B and A distinct from the sentinel 0xFFFFFFFF
installed by sprite_effect_draw_batch_ptc as the initial tracker state, one
sprite_effect_draw_batch_region_ptc call over the whole six quad range emits
exactly the event sequence ApplyState A, draw of 18 indices at the base
index, ApplyState B, draw of 18 indices at base index plus 18 — that is,
ApplyState runs exactly twice (once per state) and exactly two indexed draw
calls are issued, each covering six times its run quad count in indices —
and the persisted tracker state is B.  (When A equals the sentinel, the
first ApplyState is skipped; see the counterexample.) -/
theorem c2_draw_call_coalescing (rstate order : Nat → Nat) (A B b0 : Nat)
    (hAB : A ≠ B) (hA : A ≠ 0xFFFFFFFF)
    (h0 : rstate (order 0) = A) (h1 : rstate (order 1) = A) (h2 : rstate (order 2) = A)
    (h3 : rstate (order 3) = B) (h4 : rstate (order 4) = B) (h5 : rstate (order 5) = B) :
    sprite_effect_draw_batch_region_ptc rstate order 0 6 b0 0xFFFFFFFF =
      ([draw_event.applyState A, draw_event.draw 18 b0, draw_event.applyState B,
        draw_event.draw 18 (b0 + 18)], B) := by
  have hBA : B ≠ A := fun h => hAB h.symm
  norm_num [sprite_effect_draw_batch_region_ptc, draw_region_go,
    h0, h1, h2, h3, h4, h5, hA, hBA]

/-- C2 counterexample: the claim as stated fails when the first run uses the
render state value 0xFFFFFFFF, which coincides with the sentinel installed
by sprite_effect_draw_batch_ptc as the initial tracker state.  On the order
array 0..5 with states 0xFFFFFFFF, 0xFFFFFFFF, 0xFFFFFFFF, 0, 0, 0 (two runs
of three quads with distinct states A = 0xFFFFFFFF and B = 0), the region
call invokes ApplyState exactly once, not twice: the first run is drawn
without any ApplyState invocation because its state compares equal to the
sentinel.  The two indexed draw calls are still issued. -/
theorem c2_draw_call_coalescing_counterexample :
    c2_rstate_cex (c2_order 0) = 0xFFFFFFFF ∧ c2_rstate_cex (c2_order 1) = 0xFFFFFFFF ∧
    c2_rstate_cex (c2_order 2) = 0xFFFFFFFF ∧ c2_rstate_cex (c2_order 3) = 0 ∧
    c2_rstate_cex (c2_order 4) = 0 ∧ c2_rstate_cex (c2_order 5) = 0 ∧
    (0xFFFFFFFF : Nat) ≠ 0 ∧
    (sprite_effect_draw_batch_region_ptc c2_rstate_cex c2_order 0 6 0 0xFFFFFFFF).1.countP
      is_apply = 1 ∧
    ¬ (sprite_effect_draw_batch_region_ptc c2_rstate_cex c2_order 0 6 0 0xFFFFFFFF).1.countP
      is_apply = 2 ∧
    (sprite_effect_draw_batch_region_ptc c2_rstate_cex c2_order 0 6 0 0xFFFFFFFF).1.countP
      is_draw = 2 := by
  decide

/-- C2 witness: the amended statement on the concrete arrays with A = 4,
B = 9 and base index 7, with every hypothesis discharged concretely. -/
theorem c2_draw_call_coalescing_witness :
    sprite_effect_draw_batch_region_ptc c2_rstate c2_order 0 6 7 0xFFFFFFFF =
      ([draw_event.applyState 4, draw_event.draw 18 7, draw_event.applyState 9,
        draw_event.draw 18 (7 + 18)], 9) :=
  c2_draw_call_coalescing c2_rstate c2_order 4 9 7 (by decide) (by decide)
    (by decide) (by decide) (by decide) (by decide) (by decide) (by decide)
